import Mathlib

/-!
Shallow embedding of `src/pose_detection.py`, a single capture-process-display
loop: open a camera, read frames, run an external pose estimator on each valid
frame, draw the returned landmarks onto the original frame, display it, and
exit on the Escape key.

The external collaborators (camera reads, the MediaPipe estimator
`pose.process`, the drawing routine `mp_drawing.draw_landmarks`, the key poll
`cv2.waitKey`) are modelled as inputs of the loop semantics: each loop
iteration is driven by one `IterEnv` (the read outcome the camera produces and
the key value the poll would return that iteration), and the estimator and
drawing routine are opaque function parameters.  A run observes a finite
prefix of iterations given by a finite list of `IterEnv`s.
-/

/-- A pixel with three 8-bit colour channels, in the channel order of the
frame holding it (frames come off the camera in BGR order). -/
abbrev Pixel := Nat × Nat × Nat

/-- A frame as read from the camera: rows of pixels. -/
abbrev Frame := List (List Pixel)

/-- `img_rgb = cv2.cvtColor(frame, cv2.COLOR_BGR2RGB)` (line 37 of the
source): a pure channel permutation that produces a new frame, swapping the
first and third channel of every pixel, leaving the input frame untouched. -/
def cvtColorBGR2RGB (f : Frame) : Frame :=
  f.map (fun row => row.map (fun px => (px.2.2, px.2.1, px.1)))

/-- One body-joint landmark returned by the estimator: normalized
coordinates plus a visibility score. -/
structure Landmark where
  x : ℚ
  y : ℚ
  z : ℚ
  visibility : ℚ
deriving DecidableEq

/-- The landmark set `results.pose_landmarks`: an ordered sequence of
landmarks. -/
abbrev LandmarkSet := List Landmark

/-- Outcome of one `cap.read()` call (line 31): the read can fail
(`success = False`), succeed with a null frame (`frame is None`), or succeed
with an actual frame. -/
inductive ReadOutcome where
  | failure
  | nullFrame
  | frame (f : Frame)
deriving DecidableEq

/-- The frame delivered by a read outcome, when the read succeeded with a
non-null frame. -/
def readFrame? : ReadOutcome → Option Frame
  | ReadOutcome.failure => none
  | ReadOutcome.nullFrame => none
  | ReadOutcome.frame f => some f

/-- Whether a read outcome passes the guard
`if not success or frame is None: continue` (lines 34-35). -/
def readsValidFrame (o : ReadOutcome) : Bool :=
  (readFrame? o).isSome

/-- The external inputs driving one loop iteration: what `cap.read()`
returns, and what `cv2.waitKey(1)` would return if the iteration reaches the
key poll. -/
structure IterEnv where
  readOutcome : ReadOutcome
  key : Int
deriving DecidableEq

/-- Observable effects of one loop iteration: the argument passed to
`pose.process` if it was called, whether `mp_drawing.draw_landmarks` ran,
the frame handed to `cv2.imshow` if reached, the key value observed by
`cv2.waitKey` if reached, and whether the iteration executed `break`. -/
structure IterResult where
  estimatorArg : Option Frame
  drewOverlay : Bool
  displayed : Option Frame
  polledKey : Option Int
  breaks : Bool
deriving DecidableEq

/-- Effects of an iteration that takes the `continue` branch: nothing after
the read guard runs. -/
def skipResult : IterResult :=
  { estimatorArg := none
    drewOverlay := false
    displayed := none
    polledKey := none
    breaks := false }

/-- The exit-key test `cv2.waitKey(1) & 0xFF == 27` (line 54).  Python's
`k & 0xFF` equals `k mod 256` with a non-negative result, also for the
`-1` that `waitKey` returns when no key is pressed. -/
def escPressed (k : Int) : Bool :=
  k % 256 == 27

/-- One iteration of the `while cap.isOpened()` body (lines 30-54), given the
opaque estimator `process`, the opaque drawing routine `draw`, and the fixed
externally-defined connectivity graph `connections`
(`mp_pose.POSE_CONNECTIONS`).  The in-place mutation of `frame` by
`draw_landmarks` is modelled by rebinding: the frame displayed afterwards is
the drawn one. -/
def loopIteration (process : Frame → Option LandmarkSet)
    (draw : Frame → LandmarkSet → List (Nat × Nat) → Frame)
    (connections : List (Nat × Nat)) (env : IterEnv) : IterResult :=
  match env.readOutcome with
  | ReadOutcome.failure => skipResult
  | ReadOutcome.nullFrame => skipResult
  | ReadOutcome.frame f =>
    let imgRgb := cvtColorBGR2RGB f
    let results := process imgRgb
    let frame1 :=
      match results with
      | some lms => draw f lms connections
      | none => f
    { estimatorArg := some imgRgb
      drewOverlay := results.isSome
      displayed := some frame1
      polledKey := some env.key
      breaks := escPressed env.key }

/-- The `while cap.isOpened()` loop over a finite observed prefix of
iteration inputs: each list element drives one iteration; a `break`
(Escape pressed) ends the loop at that iteration. -/
def runLoop (process : Frame → Option LandmarkSet)
    (draw : Frame → LandmarkSet → List (Nat × Nat) → Frame)
    (connections : List (Nat × Nat)) : List IterEnv → List IterResult
  | [] => []
  | e :: rest =>
    if (loopIteration process draw connections e).breaks then
      [loopIteration process draw connections e]
    else
      loopIteration process draw connections e ::
        runLoop process draw connections rest

/-- Number of iterations in a run that invoked the estimator. -/
def estimatorCalls (rs : List IterResult) : Nat :=
  (rs.filter (fun r => r.estimatorArg.isSome)).length

/-- Frames handed to `cv2.imshow` during a run. -/
def shownFrames (rs : List IterResult) : List Frame :=
  rs.filterMap (fun r => r.displayed)

/-- The estimator configuration of lines 7-12:
`mp_pose.Pose(static_image_mode=False, model_complexity=0,
min_detection_confidence=0.5, min_tracking_confidence=0.5)`. -/
structure PoseConfig where
  static_image_mode : Bool
  model_complexity : Nat
  min_detection_confidence : ℚ
  min_tracking_confidence : ℚ
deriving DecidableEq

/-- The concrete configuration passed to `mp_pose.Pose` in the source. -/
def poseInitConfig : PoseConfig :=
  { static_image_mode := false
    model_complexity := 0
    min_detection_confidence := 0.5
    min_tracking_confidence := 0.5 }

/-- The capture backend selector passed to `cv2.VideoCapture`; the source
uses `cv2.CAP_V4L2`. -/
inductive CaptureBackend where
  | CAP_V4L2
deriving DecidableEq

/-- The camera acquisition of lines 17-25: `cv2.VideoCapture(0, cv2.CAP_V4L2)`
followed by `cap.set(cv2.CAP_PROP_FRAME_WIDTH, 640)` and
`cap.set(cv2.CAP_PROP_FRAME_HEIGHT, 480)`. -/
structure CameraInit where
  deviceIndex : Nat
  backend : CaptureBackend
  requestedWidth : Nat
  requestedHeight : Nat
deriving DecidableEq

/-- The concrete camera request made by the source. -/
def cameraInit : CameraInit :=
  { deviceIndex := 0
    backend := CaptureBackend.CAP_V4L2
    requestedWidth := 640
    requestedHeight := 480 }

/-- The console messages printed by the script, verbatim. -/
def startMessage : String := "Iniciando cámara IMX708..."

/-- Diagnostic printed on line 20 when the camera fails to open. -/
def errorMessage : String := "Error: No se pudo acceder a la cámara."

/-- Message printed on line 27 after configuring the camera. -/
def configuredMessage : String := "Cámara configurada. Iniciando procesamiento..."

/-- Message printed on line 28. -/
def escMessage : String := "Presiona ESC para salir."

/-- The window title passed to `cv2.imshow` on line 50. -/
def windowName : String := "MediaPipe Pose IMX708"

/-- Exit status of Python's `sys.exit(arg)`: a bare `sys.exit()` passes
`None`, which the interpreter maps to exit status 0; an integer argument is
used as the status. -/
def sysExitCode : Option Int → Int
  | none => 0
  | some n => n

/-- The external environment of one whole run of the script: whether the
camera opens, the observed iteration inputs, and the opaque estimator,
drawing routine, and connectivity graph. -/
structure ProgramEnv where
  cameraOpens : Bool
  iters : List IterEnv
  process : Frame → Option LandmarkSet
  draw : Frame → LandmarkSet → List (Nat × Nat) → Frame
  connections : List (Nat × Nat)

/-- Observable behaviour of one whole run of the script. -/
structure ProgramResult where
  printed : List String
  exitCode : Int
  enteredLoop : Bool
  iterations : List IterResult
  released : Bool
  windowsDestroyed : Bool

/-- The whole script: print the start message, open the camera; on failure
print the diagnostic and call bare `sys.exit()` (lines 19-21); on success
print the remaining messages, run the loop, then `cap.release()` and
`cv2.destroyAllWindows()` (lines 56-58) and fall off the end of the script
with exit status 0. -/
def runProgram (env : ProgramEnv) : ProgramResult :=
  if env.cameraOpens then
    { printed := [startMessage, configuredMessage, escMessage]
      exitCode := 0
      enteredLoop := true
      iterations := runLoop env.process env.draw env.connections env.iters
      released := true
      windowsDestroyed := true }
  else
    { printed := [startMessage, errorMessage]
      exitCode := sysExitCode none
      enteredLoop := false
      iterations := []
      released := false
      windowsDestroyed := false }

/-- An estimator stub that never detects a body, used for concrete
instantiations. -/
def trivialProcess : Frame → Option LandmarkSet := fun _ => none

/-- An estimator stub that always returns the empty landmark set, used for
concrete instantiations. -/
def alwaysDetect : Frame → Option LandmarkSet := fun _ => some []

/-- A drawing stub that leaves the frame unchanged, used for concrete
instantiations. -/
def trivialDraw : Frame → LandmarkSet → List (Nat × Nat) → Frame :=
  fun f _ _ => f

/-- A one-pixel test frame. -/
def testFrame : Frame := [[(1, 2, 3)]]

/-- A concrete run environment in which the camera fails to open. -/
def failedOpenEnv : ProgramEnv :=
  { cameraOpens := false
    iters := []
    process := trivialProcess
    draw := trivialDraw
    connections := [] }

/-- A concrete run environment in which the camera opens and no iterations
are observed. -/
def openEnv : ProgramEnv :=
  { cameraOpens := true
    iters := []
    process := trivialProcess
    draw := trivialDraw
    connections := [] }

/-! ### Helper lemmas about the loop semantics -/

/-- An iteration whose read fails the guard has no observable effects. -/
theorem loopIteration_skip (process : Frame → Option LandmarkSet)
    (draw : Frame → LandmarkSet → List (Nat × Nat) → Frame)
    (connections : List (Nat × Nat)) (e : IterEnv)
    (h : readsValidFrame e.readOutcome = false) :
    loopIteration process draw connections e = skipResult := by
  cases e with
  | mk ro k =>
    cases ro with
    | failure => rfl
    | nullFrame => rfl
    | frame f => simp [readsValidFrame, readFrame?] at h

theorem skipResult_breaks : skipResult.breaks = false := rfl

/-- A one-element observed prefix always yields exactly one iteration. -/
theorem runLoop_singleton (process : Frame → Option LandmarkSet)
    (draw : Frame → LandmarkSet → List (Nat × Nat) → Frame)
    (connections : List (Nat × Nat)) (e : IterEnv) :
    runLoop process draw connections [e] =
      [loopIteration process draw connections e] := by
  by_cases hb : (loopIteration process draw connections e).breaks <;>
    simp [runLoop, hb]

/-- Iterations whose reads all fail the guard are skipped and the loop
proceeds into the remaining inputs. -/
theorem runLoop_append_skips (process : Frame → Option LandmarkSet)
    (draw : Frame → LandmarkSet → List (Nat × Nat) → Frame)
    (connections : List (Nat × Nat)) (l rest : List IterEnv)
    (h : ∀ e ∈ l, readsValidFrame e.readOutcome = false) :
    runLoop process draw connections (l ++ rest) =
      List.replicate l.length skipResult ++
        runLoop process draw connections rest := by
  induction l with
  | nil => simp
  | cons e l ih =>
    have he : loopIteration process draw connections e = skipResult :=
      loopIteration_skip process draw connections e (h e (by simp))
    have hrec := ih (fun x hx => h x (by simp [hx]))
    simp [List.cons_append, runLoop, he, skipResult_breaks,
      List.replicate_succ, hrec]

/-- Skipped iterations contribute no estimator calls. -/
theorem estimatorCalls_replicate_skip (n : Nat) :
    estimatorCalls (List.replicate n skipResult) = 0 := by
  induction n with
  | zero => rfl
  | succ n ih =>
    rw [List.replicate_succ]
    rw [estimatorCalls] at ih ⊢
    simp only [List.filter_cons]
    exact ih

/-- A failed-read iteration input carrying key 0. -/
def failEnv : IterEnv := ⟨ReadOutcome.failure, 0⟩

/-! ### Claims -/

/-- Claim C1: each loop iteration passes the estimator exactly the RGB
conversion of the read frame when the read succeeded with a non-null frame,
and passes it nothing otherwise (the skipped iteration has no effects); for
100 failed reads followed by one successful read, the loop performs all 101
iterations, skipping the first 100, and the estimator is invoked exactly
once, on the successful read. -/
theorem C1_estimator_called_iff_valid_frame
    (process : Frame → Option LandmarkSet)
    (draw : Frame → LandmarkSet → List (Nat × Nat) → Frame)
    (connections : List (Nat × Nat))
    (fails : List IterEnv) (f : Frame) (k : Int)
    (hf : ∀ e ∈ fails, e.readOutcome = ReadOutcome.failure)
    (hn : fails.length = 100) :
    (∀ env : IterEnv,
      (loopIteration process draw connections env).estimatorArg =
        Option.map cvtColorBGR2RGB (readFrame? env.readOutcome)) ∧
    skipResult.estimatorArg = none ∧
    runLoop process draw connections
        (fails ++ [⟨ReadOutcome.frame f, k⟩]) =
      List.replicate 100 skipResult ++
        [loopIteration process draw connections ⟨ReadOutcome.frame f, k⟩] ∧
    estimatorCalls (runLoop process draw connections
        (fails ++ [⟨ReadOutcome.frame f, k⟩])) = 1 := by
  have hskip : ∀ e ∈ fails, readsValidFrame e.readOutcome = false := by
    intro e he
    rw [hf e he]
    rfl
  have hrun : runLoop process draw connections
      (fails ++ [⟨ReadOutcome.frame f, k⟩]) =
      List.replicate 100 skipResult ++
        [loopIteration process draw connections ⟨ReadOutcome.frame f, k⟩] := by
    rw [runLoop_append_skips process draw connections fails _ hskip, hn,
      runLoop_singleton]
  refine ⟨?_, rfl, hrun, ?_⟩
  · intro env
    rcases env with ⟨ro, key⟩
    cases ro <;> rfl
  · rw [hrun, estimatorCalls, List.filter_append, List.length_append]
    have h1 : (List.replicate 100 skipResult).filter
        (fun r => r.estimatorArg.isSome) = [] := by
      have h2 := estimatorCalls_replicate_skip 100
      rwa [estimatorCalls, List.length_eq_zero] at h2
    rw [h1]
    rfl

theorem C1_estimator_called_iff_valid_frame_witness :
    estimatorCalls (runLoop trivialProcess trivialDraw []
      (List.replicate 100 failEnv ++ [⟨ReadOutcome.frame testFrame, 0⟩])) = 1 :=
  (C1_estimator_called_iff_valid_frame trivialProcess trivialDraw []
    (List.replicate 100 failEnv) testFrame 0
    (fun e he => by rw [List.eq_of_mem_replicate he]; rfl)
    (by rfl)).2.2.2

/-- Claim C2 counterexample: the camera-open-failure path calls bare
`sys.exit()`, whose exit status is 0, not non-zero: the run with a failed
camera open prints the diagnostic and exits early with status 0. -/
theorem C2_counterexample :
    (runProgram failedOpenEnv).exitCode = 0 ∧
    (runProgram failedOpenEnv).printed = [startMessage, errorMessage] ∧
    (runProgram failedOpenEnv).enteredLoop = false :=
  ⟨rfl, rfl, rfl⟩

/-- Claim C2 (amended): the process exit code is 0 on normal termination via
the Escape key, and the camera-open-failure path also exits with status 0 —
the status bare `sys.exit()` yields — via an early exit before the loop,
after printing a diagnostic message to the console. -/
theorem C2_amended_exit_status (env : ProgramEnv) :
    (runProgram env).exitCode = 0 ∧
    (runProgram { env with cameraOpens := false }).printed =
      [startMessage, errorMessage] ∧
    (runProgram { env with cameraOpens := false }).enteredLoop = false ∧
    (runProgram { env with cameraOpens := false }).exitCode =
      sysExitCode none := by
  refine ⟨?_, rfl, rfl, rfl⟩
  cases h : env.cameraOpens <;> simp [runProgram, h, sysExitCode]

/-- Claim C3 counterexample: the exit test masks the polled key value with
0xFF, so the polled key value 283 — which is not the Escape code 27 — also
breaks out of the loop within one iteration, consuming no further input. -/
theorem C3_counterexample :
    (283 : Int) ≠ 27 ∧
    (loopIteration trivialProcess trivialDraw []
      ⟨ReadOutcome.frame testFrame, 283⟩).breaks = true ∧
    runLoop trivialProcess trivialDraw []
        [⟨ReadOutcome.frame testFrame, 283⟩,
         ⟨ReadOutcome.frame testFrame, 0⟩] =
      [loopIteration trivialProcess trivialDraw []
        ⟨ReadOutcome.frame testFrame, 283⟩] := by
  refine ⟨by decide, by decide, by decide⟩

/-- Claim C3 (amended): during the key-poll step the loop exits within one
iteration exactly when the polled key value's low 8 bits equal 27 (the
Escape code); any polled key value whose low byte differs from 27 leaves
control flow unaffected and the loop continues with the remaining input. -/
theorem C3_escape_low_byte_exits
    (process : Frame → Option LandmarkSet)
    (draw : Frame → LandmarkSet → List (Nat × Nat) → Frame)
    (connections : List (Nat × Nat))
    (f : Frame) (k : Int) (rest : List IterEnv) :
    ((loopIteration process draw connections
        ⟨ReadOutcome.frame f, k⟩).breaks = true ↔ k % 256 = 27) ∧
    (loopIteration process draw connections
        ⟨ReadOutcome.frame f, k⟩).polledKey = some k ∧
    runLoop process draw connections (⟨ReadOutcome.frame f, k⟩ :: rest) =
      loopIteration process draw connections ⟨ReadOutcome.frame f, k⟩ ::
        (if k % 256 = 27 then []
         else runLoop process draw connections rest) := by
  have hb : (loopIteration process draw connections
      ⟨ReadOutcome.frame f, k⟩).breaks = (k % 256 == 27) := rfl
  refine ⟨by rw [hb]; exact beq_iff_eq, rfl, ?_⟩
  by_cases hk : k % 256 = 27 <;> simp [runLoop, hb, hk]

/-- Claim C4: on an iteration whose read yields frame `f` and whose
estimator call returns no detection, the frame handed to the display step is
exactly the frame read from the camera — no overlay is drawn — while the
colorspace conversion produced a separate frame that only the estimator
received, leaving the displayed original unmodified. -/
theorem C4_no_detection_displays_original
    (process : Frame → Option LandmarkSet)
    (draw : Frame → LandmarkSet → List (Nat × Nat) → Frame)
    (connections : List (Nat × Nat)) (f : Frame) (k : Int)
    (h : process (cvtColorBGR2RGB f) = none) :
    (loopIteration process draw connections
        ⟨ReadOutcome.frame f, k⟩).displayed = some f ∧
    (loopIteration process draw connections
        ⟨ReadOutcome.frame f, k⟩).drewOverlay = false ∧
    (loopIteration process draw connections
        ⟨ReadOutcome.frame f, k⟩).estimatorArg =
      some (cvtColorBGR2RGB f) := by
  simp [loopIteration, h]

theorem C4_no_detection_displays_original_witness :
    (loopIteration trivialProcess trivialDraw []
      ⟨ReadOutcome.frame testFrame, 0⟩).displayed = some testFrame :=
  (C4_no_detection_displays_original trivialProcess trivialDraw []
    testFrame 0 rfl).1

/-- Claim C5: if the camera cannot be opened, the script prints the error
diagnostic and terminates before the loop: no iteration runs, the estimator
is never invoked, and no frame is ever handed to a display window. -/
theorem C5_failed_open_terminates_before_loop
    (env : ProgramEnv) (h : env.cameraOpens = false) :
    (runProgram env).printed = [startMessage, errorMessage] ∧
    (runProgram env).enteredLoop = false ∧
    (runProgram env).iterations = [] ∧
    estimatorCalls (runProgram env).iterations = 0 ∧
    shownFrames (runProgram env).iterations = [] := by
  simp [runProgram, h, estimatorCalls, shownFrames]

theorem C5_failed_open_terminates_before_loop_witness :
    (runProgram failedOpenEnv).iterations = [] ∧
    estimatorCalls (runProgram failedOpenEnv).iterations = 0 :=
  ⟨(C5_failed_open_terminates_before_loop failedOpenEnv rfl).2.2.1,
   (C5_failed_open_terminates_before_loop failedOpenEnv rfl).2.2.2.1⟩

/-- Claim C6: on an iteration whose read yields frame `f` and whose
estimator call returns landmark set `lms`, the drawing routine receives the
original BGR frame `f` — not the RGB conversion — together with the fixed
externally-defined connectivity graph, and the drawn original frame is the
one handed to the display. -/
theorem C6_overlay_drawn_on_original
    (process : Frame → Option LandmarkSet)
    (draw : Frame → LandmarkSet → List (Nat × Nat) → Frame)
    (connections : List (Nat × Nat)) (f : Frame) (k : Int)
    (lms : LandmarkSet)
    (h : process (cvtColorBGR2RGB f) = some lms) :
    (loopIteration process draw connections
        ⟨ReadOutcome.frame f, k⟩).displayed =
      some (draw f lms connections) ∧
    (loopIteration process draw connections
        ⟨ReadOutcome.frame f, k⟩).drewOverlay = true := by
  simp [loopIteration, h]

theorem C6_overlay_drawn_on_original_witness :
    (loopIteration alwaysDetect trivialDraw []
      ⟨ReadOutcome.frame testFrame, 0⟩).displayed =
      some (trivialDraw testFrame [] []) :=
  (C6_overlay_drawn_on_original alwaysDetect trivialDraw []
    testFrame 0 [] rfl).1

/-- Claim C7: an iteration that observes the Escape key ends the loop within
that same iteration — no further input is consumed — and a run whose camera
opened releases the camera handle and destroys all display windows on loop
exit; these are the only cleanup effects in the model. -/
theorem C7_cleanup_on_exit
    (env : ProgramEnv)
    (process : Frame → Option LandmarkSet)
    (draw : Frame → LandmarkSet → List (Nat × Nat) → Frame)
    (connections : List (Nat × Nat))
    (e : IterEnv) (rest : List IterEnv)
    (hopen : env.cameraOpens = true)
    (hb : (loopIteration process draw connections e).breaks = true) :
    runLoop process draw connections (e :: rest) =
      [loopIteration process draw connections e] ∧
    (runProgram env).released = true ∧
    (runProgram env).windowsDestroyed = true := by
  refine ⟨?_, ?_, ?_⟩
  · simp [runLoop, hb]
  · simp [runProgram, hopen]
  · simp [runProgram, hopen]

theorem C7_cleanup_on_exit_witness :
    runLoop trivialProcess trivialDraw []
        [⟨ReadOutcome.frame testFrame, 27⟩] =
      [loopIteration trivialProcess trivialDraw []
        ⟨ReadOutcome.frame testFrame, 27⟩] ∧
    (runProgram openEnv).released = true :=
  ⟨(C7_cleanup_on_exit openEnv trivialProcess trivialDraw []
      ⟨ReadOutcome.frame testFrame, 27⟩ [] rfl (by decide)).1,
   (C7_cleanup_on_exit openEnv trivialProcess trivialDraw []
      ⟨ReadOutcome.frame testFrame, 27⟩ [] rfl (by decide)).2.1⟩

/-- Claim C8: the estimator is constructed in streaming mode
(`static_image_mode = False`) with model complexity 0 — the smallest,
fastest variant — and detection and tracking confidence thresholds both
exactly one half, and the camera is opened on device 0 with the V4L2
backend and a requested 640 by 480 capture resolution. -/
theorem C8_initial_configuration :
    poseInitConfig.static_image_mode = false ∧
    poseInitConfig.model_complexity = 0 ∧
    poseInitConfig.min_detection_confidence = 1 / 2 ∧
    poseInitConfig.min_tracking_confidence = 1 / 2 ∧
    cameraInit.deviceIndex = 0 ∧
    cameraInit.backend = CaptureBackend.CAP_V4L2 ∧
    cameraInit.requestedWidth = 640 ∧
    cameraInit.requestedHeight = 480 := by
  refine ⟨rfl, rfl, ?_, ?_, rfl, rfl, rfl, rfl⟩ <;> norm_num [poseInitConfig]

/-- Claim C9: on every iteration whose read fails or yields a null frame the
loop skips display and key poll alike: a run whose reads all fail the guard
is a sequence of pure skips that observes no key value — Escape included —
never breaks, and consumes the whole observed input prefix. -/
theorem C9_skip_bypasses_display_and_poll
    (process : Frame → Option LandmarkSet)
    (draw : Frame → LandmarkSet → List (Nat × Nat) → Frame)
    (connections : List (Nat × Nat)) (envs : List IterEnv)
    (h : ∀ e ∈ envs, readsValidFrame e.readOutcome = false) :
    runLoop process draw connections envs =
      List.replicate envs.length skipResult ∧
    skipResult.displayed = none ∧
    skipResult.polledKey = none ∧
    skipResult.breaks = false := by
  refine ⟨?_, rfl, rfl, rfl⟩
  have h2 := runLoop_append_skips process draw connections envs [] h
  simpa [runLoop] using h2

theorem C9_skip_bypasses_display_and_poll_witness :
    runLoop trivialProcess trivialDraw []
        [⟨ReadOutcome.failure, 27⟩, ⟨ReadOutcome.nullFrame, 27⟩] =
      List.replicate 2 skipResult :=
  (C9_skip_bypasses_display_and_poll trivialProcess trivialDraw []
    [⟨ReadOutcome.failure, 27⟩, ⟨ReadOutcome.nullFrame, 27⟩]
    (by decide)).1

/-- Claim C10: the camera handle is released and the display windows are
destroyed exactly when the camera opened and the loop path ran to its exit;
the fatal open-failure path performs neither cleanup. -/
theorem C10_no_cleanup_on_fatal_path (env : ProgramEnv) :
    (runProgram env).released = env.cameraOpens ∧
    (runProgram env).windowsDestroyed = env.cameraOpens := by
  cases h : env.cameraOpens <;> simp [runProgram, h]
